import Mathlib

/-!
Shallow embedding of the telemetry-polling and maintenance subsystem of
`src/ass1.py` (class `LinuxSystemAssistant`), together with proofs of the
specification claims about it.

Conventions:
- Python lists of samples become Lean `List ℚ` (the source stores float
  percentages; exact rationals model them since only list structure and
  equality of sampled values matter to the claims).
- The OS metrics source (`psutil.cpu_percent`, `psutil.virtual_memory`) is
  modelled as a stream `Nat → α`: the n-th call returns the stream at n.
- Fallible OS calls are modelled with `Option`.
-/

namespace LinuxAssistant

/-! ## HistoryBuffer

`update_system_info` (ass1.py:535-539) maintains the 60-sample histories by
`self.cpu_usage_history.pop(0)` followed by `.append(value)`: drop the head,
append at the end. -/

/-- One history update: `list.pop(0)` then `list.append(v)` (ass1.py:535-536). -/
def histAppend (l : List α) (v : α) : List α := l.tail ++ [v]

/-- A sequence of history updates, oldest first. -/
def histAppendAll (l : List α) (vs : List α) : List α := vs.foldl histAppend l

/-- The initial history: `[0] * 60` (ass1.py:38-39). -/
def initialHistory : List ℚ := List.replicate 60 0

theorem length_histAppend (l : List α) (v : α) (h : l.length = 60) :
    (histAppend l v).length = 60 := by
  simp [histAppend, List.length_tail, h]

theorem histAppendAll_eq_drop :
    ∀ (vs l : List α), l ≠ [] → histAppendAll l vs = (l ++ vs).drop vs.length
  | [], l, _ => by simp [histAppendAll]
  | v :: vs, l, hl => by
    match l, hl with
    | a :: l, _ =>
      have ih := histAppendAll_eq_drop vs ((a :: l).tail ++ [v]) (by simp)
      simp only [histAppendAll, List.foldl_cons] at ih ⊢
      rw [show histAppend (a :: l) v = (a :: l).tail ++ [v] from rfl, ih]
      simp [List.append_assoc]

/-! ## Poller

`update_system_info` (ass1.py:529-553) runs once per timer tick on the UI
thread.  Per tick it:
1. calls `get_cpu_info()` and `get_memory_info()` once each (ass1.py:532-533),
2. pops/appends both histories (ass1.py:535-539),
3. calls `update_dashboard()` (ass1.py:542), which calls `get_cpu_info()`
   and `get_memory_info()` AGAIN (ass1.py:558, 567) and displays those
   second values in the progress bars and labels, while the charts are
   redrawn from the histories (ass1.py:563, 574),
4. if the System Info tab (index 1) is selected, calls `update_system_page()`
   which calls `get_cpu_info()` a third time (ass1.py:545-546, 609),
5. re-arms the timer (ass1.py:553).

Calls to `get_system_info` / `get_disk_info` made by the same tick do not
touch the CPU/memory metrics and are not tracked here. -/

structure PollState (α : Type) where
  cpuHist : List α
  memHist : List α
  /-- number of `get_cpu_info` calls made so far (each performs one
  `psutil.cpu_percent` query). -/
  cpuCalls : Nat
  /-- number of `get_memory_info` calls made so far. -/
  memCalls : Nat
  /-- value last written to the CPU progress bar / percent label by
  `update_dashboard` (ass1.py:559-560). -/
  cpuDisplayed : Option α
  /-- value last written to the memory progress bar / label (ass1.py:568-571). -/
  memDisplayed : Option α
  /-- number of `update_dashboard` invocations so far. -/
  dashboardRuns : Nat

/-- The state at program start: histories `[0] * 60`, no queries issued yet
(ass1.py:38-39). -/
def initPollState : PollState ℚ :=
  { cpuHist := initialHistory, memHist := initialHistory,
    cpuCalls := 0, memCalls := 0,
    cpuDisplayed := none, memDisplayed := none, dashboardRuns := 0 }

/-- One tick of `update_system_info` (ass1.py:529-553).  `cpu`/`mem` are the
OS metric streams; `selectedTab` is the index of the currently selected
notebook tab (`update_system_page` runs only when it is 1). -/
def tick (cpu mem : Nat → α) (selectedTab : Nat) (st : PollState α) : PollState α :=
  -- first queries, used for the histories (ass1.py:532-539)
  let c1 := cpu st.cpuCalls
  let m1 := mem st.memCalls
  let cpuHist := histAppend st.cpuHist c1
  let memHist := histAppend st.memHist m1
  -- update_dashboard issues a second round of queries and displays them
  let c2 := cpu (st.cpuCalls + 1)
  let m2 := mem (st.memCalls + 1)
  -- update_system_page (tab 1 only) issues a third CPU query (ass1.py:609)
  let extraCpu := if selectedTab = 1 then 1 else 0
  { cpuHist := cpuHist, memHist := memHist,
    cpuCalls := st.cpuCalls + 2 + extraCpu,
    memCalls := st.memCalls + 2,
    cpuDisplayed := some c2, memDisplayed := some m2,
    dashboardRuns := st.dashboardRuns + 1 }

/-- Run the poller for one tick per entry of `tabs` (the tab selected during
that tick). -/
def runTicks (cpu mem : Nat → α) (tabs : List Nat) (st : PollState α) : PollState α :=
  tabs.foldl (fun s t => tick cpu mem t s) st

/-! ## Maintenance workers

`_run_system_update_thread` (ass1.py:712-766) and
`_run_system_cleanup_thread` (ass1.py:782-833) run on dedicated worker
threads.  Every user-visible action they take — `log_append` (which calls
`self.log_text.config` / `insert` / `see` and `update_idletasks` directly,
ass1.py:835-842), the `messagebox` dialogs, and the `config` calls on the
two buttons — is a direct Tk call issued from the worker thread itself; the
source contains no queue, no `after`-marshalling, no event hand-off.  Each
such action is recorded as a `WorkerEffect` tagged with the delivery
mechanism, which for this source is always `direct`. -/

/-- How a UI effect reaches the presentation layer: called directly on the
widgets from the worker thread, or handed off through a thread-safe
mechanism and applied by the presentation thread. -/
inductive Delivery
  | direct
  | marshalled
deriving DecidableEq

/-- A presentation-layer action requested by a worker. -/
inductive UIEffect
  /-- `log_append text` (ass1.py:835-842). -/
  | logLine (s : String)
  /-- `messagebox.showerror title msg`. -/
  | dialogError (title msg : String)
  /-- `messagebox.showinfo title msg`. -/
  | dialogInfo (title msg : String)
  /-- the consecutive `self.update_button.config` / `self.cleanup_button.config`
  pair, both set to the same state (e.g. ass1.py:765-766). -/
  | buttons (enabled : Bool)
deriving DecidableEq

abbrev WorkerEffect := UIEffect × Delivery

/-- A log line issued through `log_append`, performed directly on the Tk
text widget by the calling (worker) thread. -/
def logD (s : String) : WorkerEffect := (UIEffect.logLine s, Delivery.direct)

def dialogErrD (title msg : String) : WorkerEffect :=
  (UIEffect.dialogError title msg, Delivery.direct)

def dialogInfoD (title msg : String) : WorkerEffect :=
  (UIEffect.dialogInfo title msg, Delivery.direct)

def buttonsD (enabled : Bool) : WorkerEffect := (UIEffect.buttons enabled, Delivery.direct)

/-- The terminal outcome of one maintenance operation, as signalled to the
user by the final dialog of the worker. -/
inductive Outcome
  /-- `os.geteuid() != 0`: the "Permission Error" dialog path. -/
  | permissionDenied
  /-- a step's process exited non-zero and the operation stopped there. -/
  | stepFailed (step : String) (exitCode : Int)
  /-- the `except Exception` path: "Unexpected error: ..." dialog. -/
  | unexpectedError (msg : String)
  /-- the completion `showinfo` dialog path. -/
  | success
deriving DecidableEq

/-- Everything observable about one worker run. -/
structure WorkerResult where
  /-- UI effects, in program order. -/
  effects : List WorkerEffect
  /-- `argv` of each external process spawned, in spawn order. -/
  spawned : List (List String)
  /-- an exception escaping the worker function (the source catches
  `Exception` around the whole body, so this is always `none`). -/
  raised : Option String
  outcome : Outcome

/-- Environment of one `_run_system_update_thread` run: the privilege check
result, an optionally injected unexpected exception (modelled as raised at
the start of the command phase, after the privilege check), and each
step's streamed output lines and exit code. -/
structure UpdateEnv where
  /-- `os.geteuid() == 0` (ass1.py:716). -/
  elevated : Bool
  exn : Option String
  updateLines : List String
  updateExit : Int
  upgradeLines : List String
  upgradeExit : Int

/-- The permission-denied message used by both workers (ass1.py:717-718). -/
def permMsg : String := "This operation requires root privileges. Please run with sudo."

/-- `_run_system_update_thread` (ass1.py:712-766).  Note that the
privilege-denied and first-step-failure paths `return` after re-enabling the
buttons, and the `finally` block (ass1.py:763-766) then re-enables them a
second time, hence the doubled `buttonsD true` there. -/
def runUpdate (env : UpdateEnv) : WorkerResult :=
  if env.elevated = false then
    { effects := [logD permMsg, dialogErrD "Permission Error" permMsg,
                  buttonsD true, buttonsD true],
      spawned := [], raised := none, outcome := Outcome.permissionDenied }
  else match env.exn with
    | some m =>
      { effects := [logD ("Unexpected error: " ++ m),
                    dialogErrD "Error" ("Unexpected error: " ++ m), buttonsD true],
        spawned := [], raised := none, outcome := Outcome.unexpectedError m }
    | none =>
      let step1 := logD "Updating package lists..." :: env.updateLines.map logD
      if env.updateExit ≠ 0 then
        { effects := step1 ++ [logD "Error updating package lists.",
                               dialogErrD "Update Error" "Error updating package lists.",
                               buttonsD true, buttonsD true],
          spawned := [["apt", "update"]], raised := none,
          outcome := Outcome.stepFailed "update package lists" env.updateExit }
      else
        let step2 := logD "\nUpgrading packages..." :: env.upgradeLines.map logD
        if env.upgradeExit ≠ 0 then
          { effects := step1 ++ step2 ++
                       [logD "Error upgrading packages.",
                        dialogErrD "Update Error" "Error upgrading packages.",
                        buttonsD true],
            spawned := [["apt", "update"], ["apt", "upgrade", "-y"]], raised := none,
            outcome := Outcome.stepFailed "upgrade packages" env.upgradeExit }
        else
          { effects := step1 ++ step2 ++
                       [logD "\nSystem update completed successfully!",
                        dialogInfoD "Update Complete" "System update completed successfully!",
                        buttonsD true],
            spawned := [["apt", "update"], ["apt", "upgrade", "-y"]], raised := none,
            outcome := Outcome.success }

/-- Environment of one `_run_system_cleanup_thread` run. -/
structure CleanupEnv where
  elevated : Bool
  exn : Option String
  cleanLines : List String
  /-- exit code of `apt clean`; the source never reads it (ass1.py:795-802). -/
  cleanExit : Int
  autoremoveLines : List String
  /-- exit code of `apt autoremove -y`; the source never reads it
  (ass1.py:806-813). -/
  autoremoveExit : Int
  /-- exit code of `rm -rf /tmp/*`; `check=True` raises `CalledProcessError`
  on non-zero, caught locally (ass1.py:817-821). -/
  rmExit : Int

/-- `_run_system_cleanup_thread` (ass1.py:782-833).  Unlike the update
worker, this function never inspects `process.returncode` for `apt clean`
or `apt autoremove`; a failing `rm` only changes one log line; all three
steps always run and the completion dialog is always shown. -/
def runCleanup (env : CleanupEnv) : WorkerResult :=
  if env.elevated = false then
    { effects := [logD permMsg, dialogErrD "Permission Error" permMsg,
                  buttonsD true, buttonsD true],
      spawned := [], raised := none, outcome := Outcome.permissionDenied }
  else match env.exn with
    | some m =>
      { effects := [logD ("Unexpected error: " ++ m),
                    dialogErrD "Error" ("Unexpected error: " ++ m), buttonsD true],
        spawned := [], raised := none, outcome := Outcome.unexpectedError m }
    | none =>
      let step1 := logD "Cleaning apt cache..." :: env.cleanLines.map logD
      let step2 := logD "\nRemoving unused packages..." :: env.autoremoveLines.map logD
      let step3 := [logD "\nCleaning temporary files...",
                    if env.rmExit ≠ 0 then logD "Error cleaning temporary files."
                    else logD "Temporary files cleaned."]
      { effects := step1 ++ step2 ++ step3 ++
                   [logD "\nSystem cleanup completed successfully!",
                    dialogInfoD "Cleanup Complete" "System cleanup completed successfully!",
                    buttonsD true],
        spawned := [["apt", "clean"], ["apt", "autoremove", "-y"], ["rm", "-rf", "/tmp/*"]],
        raised := none, outcome := Outcome.success }

/-- The state of the two maintenance buttons after a list of effects has
been applied, starting from `b` (the triggers disable both buttons before
the worker starts, ass1.py:706-707 and 776-777, so runs start from
`false`). -/
def applyButtons (es : List WorkerEffect) (b : Bool) : Bool :=
  es.foldl (fun st e => match e.1 with | UIEffect.buttons v => v | _ => st) b

/-! ## Disk information

`get_disk_info` (ass1.py:507-527) iterates over `psutil.disk_partitions()`,
skips cdrom/empty-fstype entries when `os.name == 'nt'`, queries
`psutil.disk_usage(mountpoint)` for the rest, and silently skips any
partition whose usage query raises `PermissionError`. -/

structure DiskUsage where
  total : Nat
  used : Nat
  free : Nat
  percent : ℚ
deriving DecidableEq

/-- One entry of `psutil.disk_partitions()` together with the behaviour of
`psutil.disk_usage` on its mount point: `none` models `disk_usage` raising
`PermissionError`. -/
structure OsPartitionEntry where
  device : String
  mountpoint : String
  fstype : String
  /-- the `opts` string of the entry (comma-separated mount options). -/
  opts : String
  usage : Option DiskUsage
deriving DecidableEq

/-- One record of the list returned by `get_disk_info` (ass1.py:515-523). -/
structure DiskPartitionInfo where
  device : String
  mountpoint : String
  fstype : String
  total : Nat
  used : Nat
  free : Nat
  percent : ℚ
deriving DecidableEq

/-- Python's substring test `'cdrom' in partition.opts` (ass1.py:511). -/
def optsContainCdrom (opts : String) : Bool := 2 ≤ (opts.splitOn "cdrom").length

/-- `get_disk_info` (ass1.py:507-527).  `osName` is `os.name`.  The source's
`for` loop with its two `continue` statements (the nt/cdrom skip and the
`except PermissionError: continue`) is transliterated as recursion over the
partition list; the `PermissionError` handler is the `none` case. -/
def get_disk_info (osName : String) : List OsPartitionEntry → List DiskPartitionInfo
  | [] => []
  | p :: ps =>
    if osName = "nt" ∧ (optsContainCdrom p.opts = true ∨ p.fstype = "") then
      get_disk_info osName ps
    else match p.usage with
      | some u =>
        ⟨p.device, p.mountpoint, p.fstype, u.total, u.used, u.free, u.percent⟩
          :: get_disk_info osName ps
      | none => get_disk_info osName ps

/-! ## Uptime formatting

`get_system_info` (ass1.py:462-480) computes the uptime string from the
uptime in seconds.  The source computes with a float
(`time.time() - psutil.boot_time()`) and truncates with `int(...)`; for a
non-negative whole number of seconds the computation is exactly natural
floor division / remainder, which is what is embedded here. -/

/-- The `(days, hours, minutes)` triple of `get_system_info`
(ass1.py:467-469): `days = s // (24*3600)`, `hours = (s % (24*3600)) // 3600`,
`minutes = (s % 3600) // 60`. -/
def get_uptime_parts (s : Nat) : Nat × Nat × Nat :=
  (s / (24 * 3600), (s % (24 * 3600)) / 3600, (s % 3600) / 60)

/-- The `"uptime"` field `f"{days}d {hours}h {minutes}m"` (ass1.py:479). -/
def uptimeString (s : Nat) : String :=
  toString (get_uptime_parts s).1 ++ "d " ++
  toString (get_uptime_parts s).2.1 ++ "h " ++
  toString (get_uptime_parts s).2.2 ++ "m"

/-! ## Shared helper lemmas -/

theorem applyButtons_append (a b : List WorkerEffect) (st : Bool) :
    applyButtons (a ++ b) st = applyButtons b (applyButtons a st) := by
  simp [applyButtons, List.foldl_append]

theorem applyButtons_map_logD (ls : List String) (b : Bool) :
    applyButtons (ls.map logD) b = b := by
  induction ls generalizing b with
  | nil => rfl
  | cons s t ih => exact ih b

theorem applyButtons_nil (b : Bool) : applyButtons [] b = b := rfl

theorem applyButtons_cons_logD (s : String) (es : List WorkerEffect) (b : Bool) :
    applyButtons (logD s :: es) b = applyButtons es b := rfl

theorem applyButtons_cons_dialogErrD (t m : String) (es : List WorkerEffect) (b : Bool) :
    applyButtons (dialogErrD t m :: es) b = applyButtons es b := rfl

theorem applyButtons_cons_dialogInfoD (t m : String) (es : List WorkerEffect) (b : Bool) :
    applyButtons (dialogInfoD t m :: es) b = applyButtons es b := rfl

theorem applyButtons_cons_buttonsD (v : Bool) (es : List WorkerEffect) (b : Bool) :
    applyButtons (buttonsD v :: es) b = applyButtons es v := rfl

/-- An effect performed directly on the widgets by the emitting thread. -/
def isDirect (e : WorkerEffect) : Bool := decide (e.2 = Delivery.direct)

theorem all_isDirect_map_logD (ls : List String) :
    (ls.map logD).all isDirect = true := by
  induction ls with
  | nil => rfl
  | cons s t ih => simp [logD, isDirect, ih]

theorem isDirect_logD (s : String) : isDirect (logD s) = true := rfl

theorem isDirect_dialogErrD (t m : String) : isDirect (dialogErrD t m) = true := rfl

theorem isDirect_dialogInfoD (t m : String) : isDirect (dialogInfoD t m) = true := rfl

theorem isDirect_buttonsD (v : Bool) : isDirect (buttonsD v) = true := rfl

theorem getLast?_histAppend (l : List α) (v : α) :
    (histAppend l v).getLast? = some v := by
  simp [histAppend]

/-! ## Claims -/

set_option maxRecDepth 20000 in
/-- **C4, counterexample.**  The claim predicts that after exactly 60 appends
(`v = 1` followed by 59 values `2`) the value `v` has been evicted and
`snapshot()[0]` equals the second appended value (`2`).  On the code,
`snapshot()[0]` is `1` (the FIRST appended value) and `1` is still present. -/
theorem claim_C4_counterexample :
    (histAppendAll initialHistory ((1 : ℚ) :: List.replicate 59 2)).head? = some 1
    ∧ (1 : ℚ) ∈ histAppendAll initialHistory ((1 : ℚ) :: List.replicate 59 2)
    ∧ ¬ (histAppendAll initialHistory ((1 : ℚ) :: List.replicate 59 2)).head? = some 2 := by
  refine ⟨by decide, by decide, by decide⟩

/-- **C4 (amended).**  For the capacity-60 buffer constructed full of the
fill value, after exactly 60 appends (`v` followed by 59 more values)
`snapshot()[0]` equals the FIRST appended value `v`; `v` is evicted only by
the next (61st) append, after which the buffer is exactly the last 60
appended values. -/
theorem claim_C4 (v w : ℚ) (ws : List ℚ) (h : ws.length = 59) :
    (histAppendAll initialHistory (v :: ws)).head? = some v
    ∧ histAppendAll initialHistory (v :: (ws ++ [w])) = ws ++ [w] := by
  have hne : initialHistory ≠ [] := by simp [initialHistory]
  have hlen : initialHistory.length = 60 := by simp [initialHistory]
  constructor
  · rw [histAppendAll_eq_drop _ _ hne]
    have : (v :: ws).length = initialHistory.length := by simp [h, hlen]
    rw [this, List.drop_left]
    rfl
  · rw [histAppendAll_eq_drop _ _ hne]
    have hassoc : initialHistory ++ v :: (ws ++ [w])
        = (initialHistory ++ [v]) ++ (ws ++ [w]) := by simp
    have hl : (v :: (ws ++ [w])).length = (initialHistory ++ [v]).length := by
      simp [h, hlen]
    rw [hassoc, hl, List.drop_left]

/-- **C4 witness.** -/
theorem claim_C4_witness :
    (List.replicate 59 (2 : ℚ)).length = 59
    ∧ ((histAppendAll initialHistory ((1 : ℚ) :: List.replicate 59 2)).head? = some 1
       ∧ histAppendAll initialHistory ((1 : ℚ) :: (List.replicate 59 2 ++ [3]))
         = List.replicate 59 2 ++ [3]) :=
  ⟨by simp, claim_C4 1 3 (List.replicate 59 2) (by simp)⟩

/-- **C5.**  For every metric stream and every sequence of poll ticks
(whatever tab is selected during each tick), both histories have length
exactly 60: the invariant holds initially (`[0] * 60`) and is preserved by
each tick's pop-then-append. -/
theorem claim_C5 (cpu mem : Nat → ℚ) (tabs : List Nat) :
    (runTicks cpu mem tabs initPollState).cpuHist.length = 60
    ∧ (runTicks cpu mem tabs initPollState).memHist.length = 60 := by
  suffices h : ∀ (tabs : List Nat) (st : PollState ℚ),
      st.cpuHist.length = 60 → st.memHist.length = 60 →
      (runTicks cpu mem tabs st).cpuHist.length = 60
      ∧ (runTicks cpu mem tabs st).memHist.length = 60 by
    exact h tabs initPollState (by simp [initPollState, initialHistory])
      (by simp [initPollState, initialHistory])
  intro tabs
  induction tabs with
  | nil => intro st h1 h2; exact ⟨h1, h2⟩
  | cons t ts ih =>
    intro st h1 h2
    exact ih (tick cpu mem t st) (length_histAppend _ _ h1) (length_histAppend _ _ h2)

/-- **C10.**  For every non-negative integer uptime `s` in seconds, the
uptime string is `"Dd Hh Mm"` with `D = s / 86400`, `H = (s % 86400) / 3600`,
`M = (s % 3600) / 60`, and these fields satisfy `H < 24`, `M < 60` and
`D*86400 + H*3600 + M*60 ≤ s < D*86400 + H*3600 + (M+1)*60`. -/
theorem claim_C10 (s : Nat) :
    get_uptime_parts s = (s / 86400, (s % 86400) / 3600, (s % 3600) / 60)
    ∧ (get_uptime_parts s).2.1 < 24
    ∧ (get_uptime_parts s).2.2 < 60
    ∧ (get_uptime_parts s).1 * 86400 + (get_uptime_parts s).2.1 * 3600
        + (get_uptime_parts s).2.2 * 60 ≤ s
    ∧ s < (get_uptime_parts s).1 * 86400 + (get_uptime_parts s).2.1 * 3600
        + ((get_uptime_parts s).2.2 + 1) * 60
    ∧ uptimeString s = toString (s / 86400) ++ "d " ++ toString ((s % 86400) / 3600)
        ++ "h " ++ toString ((s % 3600) / 60) ++ "m" := by
  refine ⟨rfl, ?_, ?_, ?_, ?_, rfl⟩ <;> (simp only [get_uptime_parts]; omega)

/-- **C1, counterexample.**  Cleanup run with elevated privilege and step
exit codes `[A = 0, B = 2, C = 0]` (`apt clean` 0, `apt autoremove` 2,
`rm` 0).  The claim predicts a failure result naming step B with exit code 2
and that step C is never invoked; on the code all three processes are
spawned and the outcome is the unconditional success dialog — the cleanup
worker never reads `process.returncode` for its apt steps. -/
theorem claim_C1_counterexample :
    (runCleanup ⟨true, none, [], 0, [], 2, 0⟩).spawned
      = [["apt", "clean"], ["apt", "autoremove", "-y"], ["rm", "-rf", "/tmp/*"]]
    ∧ (runCleanup ⟨true, none, [], 0, [], 2, 0⟩).outcome = Outcome.success
    ∧ ¬ (runCleanup ⟨true, none, [], 0, [], 2, 0⟩).outcome
        = Outcome.stepFailed "remove unused packages" 2 :=
  ⟨rfl, rfl, by decide⟩

/-- **C1 (amended).**  For the cleanup operation, step exit codes never
abort the run: with elevated privilege and no unexpected exception, all
three steps are always spawned regardless of any step's exit code, and the
terminal outcome is always the success dialog (a failing `rm` only changes
one log line). -/
theorem claim_C1 (env : CleanupEnv) (h1 : env.elevated = true) (h2 : env.exn = none) :
    (runCleanup env).spawned
      = [["apt", "clean"], ["apt", "autoremove", "-y"], ["rm", "-rf", "/tmp/*"]]
    ∧ (runCleanup env).outcome = Outcome.success := by
  simp [runCleanup, h1, h2]

/-- **C1 witness.** -/
theorem claim_C1_witness :
    (runCleanup ⟨true, none, ["a"], 1, ["b"], 2, 3⟩).spawned
      = [["apt", "clean"], ["apt", "autoremove", "-y"], ["rm", "-rf", "/tmp/*"]]
    ∧ (runCleanup ⟨true, none, ["a"], 1, ["b"], 2, 3⟩).outcome = Outcome.success :=
  claim_C1 ⟨true, none, ["a"], 1, ["b"], 2, 3⟩ rfl rfl

/-- **C3.**  For both maintenance operations, if the elevated-privilege
predicate (`os.geteuid() == 0`) is false at operation start, the worker
produces the distinguished permission-denied outcome (with its blocking
"Permission Error" dialog) and spawns zero external processes. -/
theorem claim_C3 (uenv : UpdateEnv) (cenv : CleanupEnv)
    (hu : uenv.elevated = false) (hc : cenv.elevated = false) :
    (runUpdate uenv).spawned = []
    ∧ (runUpdate uenv).outcome = Outcome.permissionDenied
    ∧ dialogErrD "Permission Error" permMsg ∈ (runUpdate uenv).effects
    ∧ (runCleanup cenv).spawned = []
    ∧ (runCleanup cenv).outcome = Outcome.permissionDenied
    ∧ dialogErrD "Permission Error" permMsg ∈ (runCleanup cenv).effects := by
  simp [runUpdate, runCleanup, hu, hc]

/-- **C3 witness.** -/
theorem claim_C3_witness :
    (runUpdate ⟨false, none, [], 0, [], 0⟩).spawned = []
    ∧ (runUpdate ⟨false, none, [], 0, [], 0⟩).outcome = Outcome.permissionDenied
    ∧ dialogErrD "Permission Error" permMsg ∈ (runUpdate ⟨false, none, [], 0, [], 0⟩).effects
    ∧ (runCleanup ⟨false, none, [], 0, [], 0, 0⟩).spawned = []
    ∧ (runCleanup ⟨false, none, [], 0, [], 0, 0⟩).outcome = Outcome.permissionDenied
    ∧ dialogErrD "Permission Error" permMsg
        ∈ (runCleanup ⟨false, none, [], 0, [], 0, 0⟩).effects :=
  claim_C3 ⟨false, none, [], 0, [], 0⟩ ⟨false, none, [], 0, [], 0, 0⟩ rfl rfl

/-- **C7.**  For the update operation, when the first step (`apt update`,
the package-index refresh) exits non-zero, only that one process is ever
spawned (the upgrade step is never executed), the outcome records the
failed step with its exit code, and the blocking "Update Error" dialog
naming the failed phase is shown (with the matching log line). -/
theorem claim_C7 (env : UpdateEnv) (h1 : env.elevated = true) (h2 : env.exn = none)
    (h3 : env.updateExit ≠ 0) :
    (runUpdate env).spawned = [["apt", "update"]]
    ∧ (runUpdate env).outcome = Outcome.stepFailed "update package lists" env.updateExit
    ∧ dialogErrD "Update Error" "Error updating package lists." ∈ (runUpdate env).effects
    ∧ logD "Error updating package lists." ∈ (runUpdate env).effects := by
  simp [runUpdate, h1, h2, h3]

/-- **C7 witness.** -/
theorem claim_C7_witness :
    (runUpdate ⟨true, none, ["x"], 2, [], 0⟩).spawned = [["apt", "update"]]
    ∧ (runUpdate ⟨true, none, ["x"], 2, [], 0⟩).outcome
        = Outcome.stepFailed "update package lists" 2 :=
  have h := claim_C7 ⟨true, none, ["x"], 2, [], 0⟩ rfl rfl (by decide)
  ⟨h.1, h.2.1⟩

/-- The buttons are re-enabled by the end of every update-worker run. -/
theorem runUpdate_buttons (env : UpdateEnv) :
    applyButtons (runUpdate env).effects false = true := by
  obtain ⟨e, x, l1, e1, l2, e2⟩ := env
  cases e with
  | false => rfl
  | true =>
    cases x with
    | some m => rfl
    | none =>
      by_cases h1 : e1 ≠ 0
      · simp [runUpdate, h1, applyButtons_append, applyButtons_map_logD,
              applyButtons_cons_logD, applyButtons_cons_dialogErrD,
              applyButtons_cons_dialogInfoD, applyButtons_cons_buttonsD, applyButtons_nil]
      · by_cases h2 : e2 ≠ 0 <;>
          simp [runUpdate, h1, h2, applyButtons_append, applyButtons_map_logD,
                applyButtons_cons_logD, applyButtons_cons_dialogErrD,
                applyButtons_cons_dialogInfoD, applyButtons_cons_buttonsD, applyButtons_nil]

/-- No exception escapes the update worker. -/
theorem runUpdate_raised (env : UpdateEnv) : (runUpdate env).raised = none := by
  obtain ⟨e, x, l1, e1, l2, e2⟩ := env
  cases e with
  | false => rfl
  | true =>
    cases x with
    | some m => rfl
    | none =>
      by_cases h1 : e1 ≠ 0
      · simp [runUpdate, h1]
      · by_cases h2 : e2 ≠ 0 <;> simp [runUpdate, h1, h2]

/-- The buttons are re-enabled by the end of every cleanup-worker run. -/
theorem runCleanup_buttons (env : CleanupEnv) :
    applyButtons (runCleanup env).effects false = true := by
  obtain ⟨e, x, l1, e1, l2, e2, e3⟩ := env
  cases e with
  | false => rfl
  | true =>
    cases x with
    | some m => rfl
    | none =>
      by_cases hr : e3 ≠ 0 <;>
        simp [runCleanup, hr, applyButtons_append, applyButtons_map_logD,
              applyButtons_cons_logD, applyButtons_cons_dialogErrD,
              applyButtons_cons_dialogInfoD, applyButtons_cons_buttonsD, applyButtons_nil]

/-- No exception escapes the cleanup worker. -/
theorem runCleanup_raised (env : CleanupEnv) : (runCleanup env).raised = none := by
  obtain ⟨e, x, l1, e1, l2, e2, e3⟩ := env
  cases e with
  | false => rfl
  | true =>
    cases x with
    | some m => rfl
    | none => rfl

/-- An injected unexpected exception in the update worker is converted to
the error-dialog failure outcome and its message is logged. -/
theorem runUpdate_exn (env : UpdateEnv) (m : String)
    (h1 : env.elevated = true) (h2 : env.exn = some m) :
    (runUpdate env).outcome = Outcome.unexpectedError m
    ∧ logD ("Unexpected error: " ++ m) ∈ (runUpdate env).effects
    ∧ dialogErrD "Error" ("Unexpected error: " ++ m) ∈ (runUpdate env).effects := by
  simp [runUpdate, h1, h2]

/-- An injected unexpected exception in the cleanup worker is converted to
the error-dialog failure outcome and its message is logged. -/
theorem runCleanup_exn (env : CleanupEnv) (m : String)
    (h1 : env.elevated = true) (h2 : env.exn = some m) :
    (runCleanup env).outcome = Outcome.unexpectedError m
    ∧ logD ("Unexpected error: " ++ m) ∈ (runCleanup env).effects
    ∧ dialogErrD "Error" ("Unexpected error: " ++ m) ∈ (runCleanup env).effects := by
  simp [runCleanup, h1, h2]

/-- **C6.**  For both maintenance workers and every environment — success,
step failure, or an unexpected exception — the operation-trigger buttons are
re-enabled by the end of the run (the `finally` blocks) and no exception
crosses the worker boundary; an unexpected exception is caught, its message
logged, and converted into the error-dialog failure outcome. -/
theorem claim_C6 (uenv : UpdateEnv) (cenv : CleanupEnv) (m : String) :
    applyButtons (runUpdate uenv).effects false = true
    ∧ (runUpdate uenv).raised = none
    ∧ applyButtons (runCleanup cenv).effects false = true
    ∧ (runCleanup cenv).raised = none
    ∧ (uenv.elevated = true → uenv.exn = some m →
        (runUpdate uenv).outcome = Outcome.unexpectedError m
        ∧ logD ("Unexpected error: " ++ m) ∈ (runUpdate uenv).effects)
    ∧ (cenv.elevated = true → cenv.exn = some m →
        (runCleanup cenv).outcome = Outcome.unexpectedError m
        ∧ logD ("Unexpected error: " ++ m) ∈ (runCleanup cenv).effects) :=
  ⟨runUpdate_buttons uenv, runUpdate_raised uenv,
   runCleanup_buttons cenv, runCleanup_raised cenv,
   fun h1 h2 => ⟨(runUpdate_exn uenv m h1 h2).1, (runUpdate_exn uenv m h1 h2).2.1⟩,
   fun h1 h2 => ⟨(runCleanup_exn cenv m h1 h2).1, (runCleanup_exn cenv m h1 h2).2.1⟩⟩

/-- **C6 witness.** -/
theorem claim_C6_witness :
    applyButtons (runUpdate ⟨true, some "boom", [], 0, [], 0⟩).effects false = true
    ∧ (runUpdate ⟨true, some "boom", [], 0, [], 0⟩).outcome
        = Outcome.unexpectedError "boom"
    ∧ (runCleanup ⟨true, some "boom", [], 0, [], 0, 0⟩).outcome
        = Outcome.unexpectedError "boom" :=
  have h := claim_C6 ⟨true, some "boom", [], 0, [], 0⟩ ⟨true, some "boom", [], 0, [], 0, 0⟩ "boom"
  ⟨h.1, (h.2.2.2.2.1 rfl rfl).1, (h.2.2.2.2.2 rfl rfl).1⟩

/-- **C9, counterexample.**  The claim predicts that every UI effect of a
worker is handed off through a thread-safe mechanism (delivery
`marshalled`); on the code the update worker's effects (here: the
permission-denied run) are all direct Tk widget calls from the worker
thread, so the all-marshalled predicate is false and a direct effect
exists. -/
theorem claim_C9_counterexample :
    ((runUpdate ⟨false, none, [], 0, [], 0⟩).effects.all
        (fun e => decide (e.2 = Delivery.marshalled))) = false
    ∧ ((runUpdate ⟨false, none, [], 0, [], 0⟩).effects.any isDirect) = true :=
  ⟨rfl, rfl⟩

/-- **C9 (amended).**  Worker threads mutate presentation state directly:
for every environment, every UI effect emitted by either maintenance worker
— each log line, each dialog, each button toggle — is performed as a direct
widget call by the worker thread itself; the source contains no thread-safe
hand-off applied by the presentation thread. -/
theorem claim_C9 (uenv : UpdateEnv) (cenv : CleanupEnv) :
    (runUpdate uenv).effects.all isDirect = true
    ∧ (runCleanup cenv).effects.all isDirect = true := by
  constructor
  · obtain ⟨e, x, l1, e1, l2, e2⟩ := uenv
    cases e with
    | false => rfl
    | true =>
      cases x with
      | some m => rfl
      | none =>
        by_cases h1 : e1 ≠ 0
        · simp [runUpdate, h1, List.all_append, all_isDirect_map_logD, isDirect_logD,
                isDirect_dialogErrD, isDirect_dialogInfoD, isDirect_buttonsD]
        · by_cases h2 : e2 ≠ 0 <;>
            simp [runUpdate, h1, h2, List.all_append, all_isDirect_map_logD, isDirect_logD,
                  isDirect_dialogErrD, isDirect_dialogInfoD, isDirect_buttonsD]
  · obtain ⟨e, x, l1, e1, l2, e2, e3⟩ := cenv
    cases e with
    | false => rfl
    | true =>
      cases x with
      | some m => rfl
      | none =>
        by_cases hr : e3 ≠ 0 <;>
          simp [runCleanup, hr, List.all_append, all_isDirect_map_logD, isDirect_logD,
                isDirect_dialogErrD, isDirect_dialogInfoD, isDirect_buttonsD]

/-- **C2, counterexample.**  With a CPU stream whose first query returns
`42.5` and whose second returns `10`, one poll tick from the initial state
issues TWO CPU queries (not one): the history's last element is `42.5`
(the first query) but the dashboard displays `10` (the second query), which
differs from it. -/
theorem claim_C2_counterexample :
    (tick (fun n => if n = 0 then (85 / 2 : ℚ) else 10) (fun _ => (0 : ℚ)) 0
        initPollState).cpuCalls = 2
    ∧ (tick (fun n => if n = 0 then (85 / 2 : ℚ) else 10) (fun _ => (0 : ℚ)) 0
        initPollState).cpuHist.getLast? = some (85 / 2)
    ∧ (tick (fun n => if n = 0 then (85 / 2 : ℚ) else 10) (fun _ => (0 : ℚ)) 0
        initPollState).cpuDisplayed = some 10
    ∧ ¬ (10 : ℚ) = 85 / 2 :=
  ⟨rfl, getLast?_histAppend _ _, rfl, by norm_num⟩

/-- **C2 (amended).**  On every poll tick the CPU metric is queried twice —
once by `update_system_info`, whose value becomes the last element of the
CPU history, and once more by `update_dashboard`, which runs exactly once
per tick but displays its own (second) query's value, which may differ from
the first; a third CPU query occurs when the System Info tab is selected.
The memory metric is likewise queried twice per tick. -/
theorem claim_C2 (α : Type) (cpu mem : Nat → α) (tab : Nat) (st : PollState α) :
    (tick cpu mem tab st).cpuHist.getLast? = some (cpu st.cpuCalls)
    ∧ (tick cpu mem tab st).memHist.getLast? = some (mem st.memCalls)
    ∧ (tick cpu mem tab st).cpuCalls = st.cpuCalls + 2 + (if tab = 1 then 1 else 0)
    ∧ (tick cpu mem tab st).memCalls = st.memCalls + 2
    ∧ (tick cpu mem tab st).cpuDisplayed = some (cpu (st.cpuCalls + 1))
    ∧ (tick cpu mem tab st).memDisplayed = some (mem (st.memCalls + 1))
    ∧ (tick cpu mem tab st).dashboardRuns = st.dashboardRuns + 1 :=
  ⟨getLast?_histAppend _ _, getLast?_histAppend _ _, rfl, rfl, rfl, rfl, rfl⟩

/-- **C8.**  `get_disk_info` is total (the `PermissionError` branch is
handled by skipping the entry, never surfacing an exception): for every OS
state, the result length is at most the number of OS-reported partitions,
and in fact at most the number of partitions whose usage query succeeds. -/
theorem get_disk_info_cons_skip (osName : String) (p : OsPartitionEntry)
    (ps : List OsPartitionEntry)
    (hc : osName = "nt" ∧ (optsContainCdrom p.opts = true ∨ p.fstype = "")) :
    get_disk_info osName (p :: ps) = get_disk_info osName ps := by
  simp [get_disk_info, hc]

theorem get_disk_info_cons_perm (osName : String) (p : OsPartitionEntry)
    (ps : List OsPartitionEntry)
    (hc : ¬ (osName = "nt" ∧ (optsContainCdrom p.opts = true ∨ p.fstype = "")))
    (hu : p.usage = none) :
    get_disk_info osName (p :: ps) = get_disk_info osName ps := by
  simp [get_disk_info, hc, hu]

theorem get_disk_info_cons_ok (osName : String) (p : OsPartitionEntry)
    (ps : List OsPartitionEntry) (u : DiskUsage)
    (hc : ¬ (osName = "nt" ∧ (optsContainCdrom p.opts = true ∨ p.fstype = "")))
    (hu : p.usage = some u) :
    get_disk_info osName (p :: ps)
      = ⟨p.device, p.mountpoint, p.fstype, u.total, u.used, u.free, u.percent⟩
          :: get_disk_info osName ps := by
  simp [get_disk_info, hc, hu]

theorem claim_C8 (osName : String) (entries : List OsPartitionEntry) :
    (get_disk_info osName entries).length ≤ entries.length
    ∧ (get_disk_info osName entries).length
        ≤ (entries.filter (fun p => p.usage.isSome)).length := by
  induction entries with
  | nil => simp [get_disk_info]
  | cons p ps ih =>
    obtain ⟨ih1, ih2⟩ := ih
    by_cases hc : osName = "nt" ∧ (optsContainCdrom p.opts = true ∨ p.fstype = "")
    · rw [get_disk_info_cons_skip osName p ps hc, List.filter_cons]
      refine ⟨le_trans ih1 (Nat.le_succ _), ?_⟩
      split
      · exact le_trans ih2 (Nat.le_succ _)
      · exact ih2
    · cases hu : p.usage with
      | none =>
        rw [get_disk_info_cons_perm osName p ps hc hu, List.filter_cons]
        refine ⟨le_trans ih1 (Nat.le_succ _), ?_⟩
        have hs : (p.usage.isSome = true) = False := by simp [hu]
        simp only [hs, if_false]
        exact ih2
      | some u =>
        rw [get_disk_info_cons_ok osName p ps u hc hu, List.filter_cons]
        have hs : p.usage.isSome = true := by simp [hu]
        simp only [hs, if_true, List.length_cons]
        exact ⟨Nat.succ_le_succ ih1, Nat.succ_le_succ ih2⟩

end LinuxAssistant
